import Mathlib

/-!
Verification of the TLS/STARTTLS probe core of the `mmdebug` diagnostic
utility.  The probe functions from the source (`testTLSHandshake`,
`testTLSHandshakeInsecure`, `testTLSHandshakeWithSNI`,
`testPostgresSTARTTLS`, `testLDAPSTARTTLS`, `tlsVersionString`,
`cipherSuiteString`) are embedded shallowly: network and TLS-stack
behaviour is abstracted as an oracle (`Env`) supplying the outcome of each
I/O operation, and the STARTTLS probes additionally return the trace of
network actions they performed, so that statements such as "no TLS
handshake is attempted" are expressible.  Go errors are modelled as the
strings the source builds with `fmt.Errorf`; `%w`-wrapping becomes string
concatenation of the stage prefix with the wrapped error's text.
-/

/-- Go errors are surfaced to the caller only as text, so they are
modelled as their rendered strings. -/
abbrev GoError := String

/-- The negotiated-parameter triple read from `tls.ConnectionState` after a
successful handshake: `Version`, `CipherSuite` and `len(PeerCertificates)`. -/
structure ConnectionState where
  version : Nat
  cipherSuite : Nat
  peerCertificates : Nat
deriving DecidableEq, Repr

/-- The fields of Go's `tls.Config` that the source sets: `ServerName` and
`InsecureSkipVerify` (zero value `false`). -/
structure Config where
  serverName : String
  insecureSkipVerify : Bool := false
deriving DecidableEq, Repr

/-- Embedding of the source's `tlsTestResult` struct; field defaults are
the Go zero values of the corresponding types (`nil` error becomes
`none`). -/
structure tlsTestResult where
  success : Bool := false
  version : Nat := 0
  cipherSuite : Nat := 0
  serverName : String := ""
  peerCertificates : Nat := 0
  err : Option GoError := none
deriving DecidableEq, Repr

/-- One network-visible action a probe can perform, recorded in order in
the probe's trace. -/
inductive NetAction where
  | dialTCP (address : String) (timeout : Nat)
  | write (data : List Nat)
  | readBuf (size : Nat)
  | handshake (config : Config)
deriving DecidableEq, Repr

/-- Oracle describing the behaviour of the network / TLS stack / remote
peer for one probe invocation.  `tlsDial` models `tls.DialWithDialer`
(dial and handshake combined, as in the direct probes); `dial` models the
plain TCP dial; `write`, `read` and `handshake` model the subsequent
operations on the single established connection.  `read` receives the
buffer size and yields the bytes the reader delivers (a conforming reader
never delivers more than the buffer size; the probe truncates to model
this). -/
structure Env where
  tlsDial : Nat → String → Config → Except GoError ConnectionState
  dial : Nat → String → Except GoError Unit
  write : List Nat → Except GoError Unit
  read : Nat → Except GoError (List Nat)
  handshake : Config → Except GoError ConnectionState

/-- Embedding of `testTLSHandshake`: dial host:port with the configured
timeout and perform a TLS handshake with `ServerName` set to the dial
host; on success copy the negotiated parameters into the result. -/
def testTLSHandshake (env : Env) (host : String) (port : Nat) (timeout : Nat) :
    tlsTestResult :=
  let result : tlsTestResult := { serverName := host }
  let address := host ++ ":" ++ toString port
  let config : Config := { serverName := host }
  match env.tlsDial timeout address config with
  | .error e => { result with err := some ("TLS handshake failed: " ++ e) }
  | .ok state =>
    { result with
      success := true
      version := state.version
      cipherSuite := state.cipherSuite
      peerCertificates := state.peerCertificates }

/-- Embedding of `testTLSHandshakeInsecure`: identical to
`testTLSHandshake` except that `InsecureSkipVerify` is set in the TLS
configuration. -/
def testTLSHandshakeInsecure (env : Env) (host : String) (port : Nat) (timeout : Nat) :
    tlsTestResult :=
  let result : tlsTestResult := { serverName := host }
  let address := host ++ ":" ++ toString port
  let config : Config := { serverName := host, insecureSkipVerify := true }
  match env.tlsDial timeout address config with
  | .error e => { result with err := some ("TLS handshake failed: " ++ e) }
  | .ok state =>
    { result with
      success := true
      version := state.version
      cipherSuite := state.cipherSuite
      peerCertificates := state.peerCertificates }

/-- Embedding of `testTLSHandshakeWithSNI`: like `testTLSHandshake` but
both the result's `serverName` and the TLS configuration's `ServerName`
are the caller-supplied SNI override rather than the dial host. -/
def testTLSHandshakeWithSNI (env : Env) (host : String) (port : Nat) (sni : String)
    (timeout : Nat) : tlsTestResult :=
  let result : tlsTestResult := { serverName := sni }
  let address := host ++ ":" ++ toString port
  let config : Config := { serverName := sni }
  match env.tlsDial timeout address config with
  | .error e => { result with err := some ("TLS handshake failed: " ++ e) }
  | .ok state =>
    { result with
      success := true
      version := state.version
      cipherSuite := state.cipherSuite
      peerCertificates := state.peerCertificates }

/-- The PostgreSQL SSLRequest frame the source writes: 4-byte big-endian
length 8 followed by the 4-byte SSL-request code 0x04d2162f. -/
def sslRequest : List Nat := [0x00, 0x00, 0x00, 0x08, 0x04, 0xd2, 0x16, 0x2f]

/-- The LDAP STARTTLS extended-operation request frame the source writes
(BER-encoded constant). -/
def startTLSRequest : List Nat :=
  [0x30, 0x1d,
   0x02, 0x01, 0x01,
   0x77, 0x18,
   0x80, 0x16,
   0x31, 0x2e, 0x33, 0x2e, 0x36, 0x2e, 0x31, 0x2e,
   0x34, 0x2e, 0x31, 0x2e, 0x31, 0x34, 0x36, 0x36,
   0x2e, 0x32, 0x30, 0x30, 0x33, 0x37]

/-- Embedding of `testPostgresSTARTTLS`, returning the result together
with the trace of network actions performed.  The single-byte response
buffer is zero-initialised in Go, so the inspected byte is the first
delivered byte, or 0 when the read delivered nothing; the error message
renders it with `%c`, i.e. as the character of that code point. -/
def testPostgresSTARTTLS (env : Env) (host : String) (port : Nat) (timeout : Nat) :
    tlsTestResult × List NetAction :=
  let result : tlsTestResult := { serverName := host }
  let address := host ++ ":" ++ toString port
  match env.dial timeout address with
  | .error e =>
    ({ result with err := some ("failed to connect to postgres: " ++ e) },
     [.dialTCP address timeout])
  | .ok _ =>
    match env.write sslRequest with
    | .error e =>
      ({ result with err := some ("failed to send SSL request: " ++ e) },
       [.dialTCP address timeout, .write sslRequest])
    | .ok _ =>
      match env.read 1 with
      | .error e =>
        ({ result with err := some ("failed to read SSL response: " ++ e) },
         [.dialTCP address timeout, .write sslRequest, .readBuf 1])
      | .ok data =>
        let b := (data.take 1).headD 0
        if b ≠ 0x53 then
          ({ result with
              err := some ("server does not support SSL (response: " ++
                String.mk [Char.ofNat b] ++ ")") },
           [.dialTCP address timeout, .write sslRequest, .readBuf 1])
        else
          let tlsConfig : Config := { serverName := host }
          match env.handshake tlsConfig with
          | .error e =>
            ({ result with err := some ("TLS handshake failed: " ++ e) },
             [.dialTCP address timeout, .write sslRequest, .readBuf 1,
              .handshake tlsConfig])
          | .ok state =>
            ({ result with
                success := true
                version := state.version
                cipherSuite := state.cipherSuite
                peerCertificates := state.peerCertificates },
             [.dialTCP address timeout, .write sslRequest, .readBuf 1,
              .handshake tlsConfig])

/-- Embedding of `testLDAPSTARTTLS`, returning the result together with
the trace of network actions performed.  The response is read into a
1024-byte buffer (via a buffered reader); only the delivered length `n`
is validated (`n < 10` fails). -/
def testLDAPSTARTTLS (env : Env) (host : String) (port : Nat) (timeout : Nat) :
    tlsTestResult × List NetAction :=
  let result : tlsTestResult := { serverName := host }
  let address := host ++ ":" ++ toString port
  match env.dial timeout address with
  | .error e =>
    ({ result with err := some ("failed to connect to LDAP: " ++ e) },
     [.dialTCP address timeout])
  | .ok _ =>
    match env.write startTLSRequest with
    | .error e =>
      ({ result with err := some ("failed to send STARTTLS request: " ++ e) },
       [.dialTCP address timeout, .write startTLSRequest])
    | .ok _ =>
      match env.read 1024 with
      | .error e =>
        ({ result with err := some ("failed to read STARTTLS response: " ++ e) },
         [.dialTCP address timeout, .write startTLSRequest, .readBuf 1024])
      | .ok data =>
        let n := (data.take 1024).length
        if n < 10 then
          ({ result with
              err := some ("invalid STARTTLS response length: " ++ toString n) },
           [.dialTCP address timeout, .write startTLSRequest, .readBuf 1024])
        else
          let tlsConfig : Config := { serverName := host }
          match env.handshake tlsConfig with
          | .error e =>
            ({ result with err := some ("TLS handshake failed: " ++ e) },
             [.dialTCP address timeout, .write startTLSRequest, .readBuf 1024,
              .handshake tlsConfig])
          | .ok state =>
            ({ result with
                success := true
                version := state.version
                cipherSuite := state.cipherSuite
                peerCertificates := state.peerCertificates },
             [.dialTCP address timeout, .write startTLSRequest, .readBuf 1024,
              .handshake tlsConfig])

/-- Lowercase hexadecimal digit character for a value below 16, as Go's
`%x` verb produces. -/
def hexDigit (n : Nat) : Char :=
  if n < 10 then Char.ofNat (48 + n) else Char.ofNat (87 + n)

/-- Rendering of Go's `fmt.Sprintf` with verb `%04x` for a value below
65536: four zero-padded lowercase hexadecimal digits. -/
def hex4 (n : Nat) : String :=
  String.mk [hexDigit (n / 4096 % 16), hexDigit (n / 256 % 16),
             hexDigit (n / 16 % 16), hexDigit (n % 16)]

/-- Embedding of `tlsVersionString`. -/
def tlsVersionString (version : Nat) : String :=
  if version = 0x0300 then "SSL 3.0"
  else if version = 0x0301 then "TLS 1.0"
  else if version = 0x0302 then "TLS 1.1"
  else if version = 0x0303 then "TLS 1.2"
  else if version = 0x0304 then "TLS 1.3"
  else "Unknown (0x" ++ hex4 version ++ ")"

/-- Embedding of the `suites` map literal inside `cipherSuiteString`, as an
association list in source order. -/
def suites : List (Nat × String) :=
  [(0x0004, "TLS_RSA_WITH_RC4_128_MD5"),
   (0x0005, "TLS_RSA_WITH_RC4_128_SHA"),
   (0x000a, "TLS_RSA_WITH_3DES_EDE_CBC_SHA"),
   (0x002f, "TLS_RSA_WITH_AES_128_CBC_SHA"),
   (0x0035, "TLS_RSA_WITH_AES_256_CBC_SHA"),
   (0x003c, "TLS_RSA_WITH_AES_128_CBC_SHA256"),
   (0x003d, "TLS_RSA_WITH_AES_256_CBC_SHA256"),
   (0x009c, "TLS_RSA_WITH_AES_128_GCM_SHA256"),
   (0x009d, "TLS_RSA_WITH_AES_256_GCM_SHA384"),
   (0xc007, "TLS_ECDHE_ECDSA_WITH_RC4_128_SHA"),
   (0xc009, "TLS_ECDHE_ECDSA_WITH_AES_128_CBC_SHA"),
   (0xc00a, "TLS_ECDHE_ECDSA_WITH_AES_256_CBC_SHA"),
   (0xc011, "TLS_ECDHE_RSA_WITH_RC4_128_SHA"),
   (0xc013, "TLS_ECDHE_RSA_WITH_AES_128_CBC_SHA"),
   (0xc014, "TLS_ECDHE_RSA_WITH_AES_256_CBC_SHA"),
   (0xc023, "TLS_ECDHE_ECDSA_WITH_AES_128_CBC_SHA256"),
   (0xc024, "TLS_ECDHE_ECDSA_WITH_AES_256_CBC_SHA384"),
   (0xc027, "TLS_ECDHE_RSA_WITH_AES_128_CBC_SHA256"),
   (0xc028, "TLS_ECDHE_RSA_WITH_AES_256_CBC_SHA384"),
   (0xc02b, "TLS_ECDHE_ECDSA_WITH_AES_128_GCM_SHA256"),
   (0xc02c, "TLS_ECDHE_ECDSA_WITH_AES_256_GCM_SHA384"),
   (0xc02f, "TLS_ECDHE_RSA_WITH_AES_128_GCM_SHA256"),
   (0xc030, "TLS_ECDHE_RSA_WITH_AES_256_GCM_SHA384"),
   (0x1301, "TLS_AES_128_GCM_SHA256"),
   (0x1302, "TLS_AES_256_GCM_SHA384"),
   (0x1303, "TLS_CHACHA20_POLY1305_SHA256")]

/-- Embedding of `cipherSuiteString`: map lookup with the unknown-code
fallback. -/
def cipherSuiteString (suite : Nat) : String :=
  match suites.lookup suite with
  | some name => name
  | none => "Unknown (0x" ++ hex4 suite ++ ")"

/-- Whether a trace contains a TLS-handshake attempt. -/
def attemptsHandshake (trace : List NetAction) : Bool :=
  trace.any fun a => match a with
    | .handshake _ => true
    | _ => false

/-- Big-endian value of a byte sequence. -/
def beValue (bs : List Nat) : Nat := bs.foldl (fun a b => 256 * a + b) 0

/-- Numeric value of a lowercase hexadecimal digit character. -/
def hexDigitVal (c : Char) : Nat :=
  if 48 ≤ c.toNat ∧ c.toNat ≤ 57 then c.toNat - 48 else c.toNat - 87

/-- Whether a character is a lowercase hexadecimal digit. -/
def isLowerHexChar (c : Char) : Bool :=
  (48 ≤ c.toNat && c.toNat ≤ 57) || (97 ≤ c.toNat && c.toNat ≤ 102)

/-- Whether every character of a string is a lowercase hexadecimal digit. -/
def isLowerHex (s : String) : Bool := s.data.all isLowerHexChar

/-- Numeric value of a hexadecimal string. -/
def hexValue (s : String) : Nat :=
  s.data.foldl (fun a c => 16 * a + hexDigitVal c) 0

/-- Invariant shared by every probe result: the serverName field carries
the configured name, success holds exactly when no error is recorded, a
failed probe leaves the handshake-derived fields at their zero values with
an error present, and every recorded error message is non-empty. -/
def resultInvariant (r : tlsTestResult) (name : String) : Prop :=
  r.serverName = name ∧
  (r.success = true ↔ r.err = none) ∧
  (r.success = false →
    r.version = 0 ∧ r.cipherSuite = 0 ∧ r.peerCertificates = 0 ∧ r.err.isSome = true) ∧
  (∀ s, r.err = some s → 0 < s.length)

/-- Sample negotiated parameters: TLS 1.3, TLS_AES_128_GCM_SHA256, one
peer certificate. -/
def stateTLS13 : ConnectionState :=
  { version := 0x0304, cipherSuite := 0x1301, peerCertificates := 1 }

/-- Concrete oracle: every network operation is refused. -/
def envRefuseAll : Env where
  tlsDial := fun _ _ _ => .error "connection refused"
  dial := fun _ _ => .error "connection refused"
  write := fun _ => .error "broken pipe"
  read := fun _ => .error "eof"
  handshake := fun _ => .error "connection reset"

/-- Concrete oracle: the mock database server answers the upgrade request
with the single byte 'N' (0x4e) instead of 'S'. -/
def envBadByte : Env where
  tlsDial := fun _ _ _ => .error "connection refused"
  dial := fun _ _ => .ok ()
  write := fun _ => .ok ()
  read := fun _ => .ok [0x4e]
  handshake := fun _ => .error "handshake never reached"

/-- Concrete oracle: the mock directory server answers the upgrade request
with exactly 10 bytes of arbitrary content and then completes the TLS
handshake. -/
def envLDAP10 : Env where
  tlsDial := fun _ _ _ => .error "connection refused"
  dial := fun _ _ => .ok ()
  write := fun _ => .ok ()
  read := fun _ => .ok [0x30, 0x0c, 0x02, 0x01, 0x01, 0x78, 0x07, 0x0a, 0x01, 0x00]
  handshake := fun _ => .ok stateTLS13

/-- Helper: each hexadecimal digit below 16 renders as a lowercase hex
character whose value round-trips. -/
theorem hexDigit_spec :
    ∀ d < 16, hexDigitVal (hexDigit d) = d ∧ isLowerHexChar (hexDigit d) = true := by
  decide

/-- Helper: `hex4` renders any value below 65536 as exactly four lowercase
hexadecimal digits whose value is the input. -/
theorem hex4_spec (v : Nat) (h : v < 65536) :
    (hex4 v).length = 4 ∧ isLowerHex (hex4 v) = true ∧ hexValue (hex4 v) = v := by
  have e3 := hexDigit_spec (v / 4096 % 16) (Nat.mod_lt _ (by omega))
  have e2 := hexDigit_spec (v / 256 % 16) (Nat.mod_lt _ (by omega))
  have e1 := hexDigit_spec (v / 16 % 16) (Nat.mod_lt _ (by omega))
  have e0 := hexDigit_spec (v % 16) (Nat.mod_lt _ (by omega))
  refine ⟨rfl, ?_, ?_⟩
  · simp [hex4, isLowerHex, e3.2, e2.2, e1.2, e0.2]
  · simp [hex4, hexValue, e3.1, e2.1, e1.1, e0.1]
    omega

/-- Helper: a string of positive length is not the empty string. -/
theorem ne_empty_of_length_pos (s : String) (h : 0 < s.length) : s ≠ "" := by
  intro heq
  rw [heq] at h
  exact absurd h (by decide)

/-- Helper: the unknown-code fallback string is never empty. -/
theorem unknown_format_ne_empty (t : String) : "Unknown (0x" ++ t ++ ")" ≠ "" := by
  apply ne_empty_of_length_pos
  rw [String.length_append, String.length_append]
  have : 0 < ("Unknown (0x").length := by decide
  omega

/-- Helper: a successful association-list lookup returns one of the stored
values. -/
theorem lookup_mem_values (l : List (Nat × String)) (k : Nat) (v : String)
    (h : l.lookup k = some v) : v ∈ l.map Prod.snd := by
  induction l with
  | nil => simp [List.lookup] at h
  | cons p rest ih =>
    obtain ⟨a, b⟩ := p
    rw [List.lookup] at h
    cases hk : (k == a) with
    | false =>
      rw [hk] at h
      exact List.mem_cons_of_mem _ (ih h)
    | true =>
      rw [hk] at h
      injection h with h
      subst h
      exact List.mem_cons_self _ _

/-- C5: the TLS-version-name function is total on 16-bit inputs: it always
returns a non-empty string, the five known codes map to their literal
names, and every other code renders as "Unknown (0xNNNN)" with the code in
zero-padded 4-digit lowercase hex. -/
theorem tlsVersionString_total (v : Nat) (h : v < 65536) :
    tlsVersionString v ≠ "" ∧
    tlsVersionString 0x0300 = "SSL 3.0" ∧
    tlsVersionString 0x0301 = "TLS 1.0" ∧
    tlsVersionString 0x0302 = "TLS 1.1" ∧
    tlsVersionString 0x0303 = "TLS 1.2" ∧
    tlsVersionString 0x0304 = "TLS 1.3" ∧
    (v ∉ [0x0300, 0x0301, 0x0302, 0x0303, 0x0304] →
      tlsVersionString v = "Unknown (0x" ++ hex4 v ++ ")" ∧
      (hex4 v).length = 4 ∧ isLowerHex (hex4 v) = true ∧ hexValue (hex4 v) = v) := by
  refine ⟨?_, by decide, by decide, by decide, by decide, by decide, ?_⟩
  · unfold tlsVersionString
    split_ifs <;> first | decide | exact unknown_format_ne_empty _
  · intro hnot
    simp only [List.mem_cons, List.not_mem_nil, or_false, not_or] at hnot
    obtain ⟨h0, h1, h2, h3, h4⟩ := hnot
    have hv := hex4_spec v h
    refine ⟨?_, hv.1, hv.2.1, hv.2.2⟩
    unfold tlsVersionString
    simp [h0, h1, h2, h3, h4]

/-- C5 witness: the theorem instantiated at the unknown code 0xabcd. -/
theorem tlsVersionString_total_witness :
    tlsVersionString 0xabcd = "Unknown (0x" ++ hex4 0xabcd ++ ")" ∧
    (hex4 0xabcd).length = 4 ∧ isLowerHex (hex4 0xabcd) = true ∧
    hexValue (hex4 0xabcd) = 0xabcd :=
  (tlsVersionString_total 0xabcd (by decide)).2.2.2.2.2.2 (by decide)

/-- C6 counterexample: the cipher-suite table in the source has 26
entries, not 27 as the claim states. -/
theorem suites_card_counterexample : suites.length = 26 ∧ ¬(suites.length = 27) := by
  decide

/-- C6 (amended): the cipher-suite-name function maps 16-bit codes through
a fixed 26-entry table with pairwise-distinct codes, one entry per known
code mapping to its canonical name, is total (never returns an empty
string), and renders every code outside the table as "Unknown (0xNNNN)"
with the code in zero-padded 4-digit lowercase hex. -/
theorem cipherSuiteString_total (s : Nat) (h : s < 65536) :
    suites.length = 26 ∧
    (suites.map Prod.fst).Nodup ∧
    (∀ p ∈ suites, cipherSuiteString p.1 = p.2) ∧
    cipherSuiteString s ≠ "" ∧
    (suites.lookup s = none →
      cipherSuiteString s = "Unknown (0x" ++ hex4 s ++ ")" ∧
      (hex4 s).length = 4 ∧ isLowerHex (hex4 s) = true ∧ hexValue (hex4 s) = s) := by
  refine ⟨by decide, by decide, by decide, ?_, ?_⟩
  · unfold cipherSuiteString
    cases hl : suites.lookup s with
    | none => exact unknown_format_ne_empty _
    | some name =>
      have hmem := lookup_mem_values suites s name hl
      have hne : ∀ w ∈ suites.map Prod.snd, w ≠ "" := by decide
      exact hne name hmem
  · intro hl
    have hv := hex4_spec s h
    refine ⟨?_, hv.1, hv.2.1, hv.2.2⟩
    unfold cipherSuiteString
    rw [hl]

/-- C6 witness: the amended theorem instantiated at the unmapped code
0x00ff. -/
theorem cipherSuiteString_total_witness :
    cipherSuiteString 0x00ff = "Unknown (0x" ++ hex4 0x00ff ++ ")" ∧
    (hex4 0x00ff).length = 4 ∧ isLowerHex (hex4 0x00ff) = true ∧
    hexValue (hex4 0x00ff) = 0x00ff :=
  (cipherSuiteString_total 0x00ff (by decide)).2.2.2.2 (by decide)

/-- Helper: a concatenation whose left part is non-empty has positive
length. -/
theorem length_pos_of_left (p e : String) (hp : 0 < p.length) : 0 < (p ++ e).length := by
  rw [String.length_append]
  omega

/-- Helper: a failure-shaped result (only serverName and a non-empty error
set, every other field at its zero value) satisfies the result
invariant. -/
theorem resultInvariant_fail (name msg : String) (hmsg : 0 < msg.length) :
    resultInvariant { serverName := name, err := some msg } name := by
  refine ⟨rfl, by simp, by simp, ?_⟩
  intro s hs
  simp only [Option.some.injEq] at hs
  subst hs
  exact hmsg

/-- Helper: a success-shaped result (negotiated fields copied from the
connection state, no error) satisfies the result invariant. -/
theorem resultInvariant_ok (name : String) (st : ConnectionState) :
    resultInvariant
      { success := true, version := st.version, cipherSuite := st.cipherSuite,
        serverName := name, peerCertificates := st.peerCertificates } name := by
  refine ⟨rfl, by simp, by simp, ?_⟩
  intro s hs
  simp at hs

/-- Helper: the plain TLS probe's result always satisfies the invariant
with the dial host as configured name. -/
theorem testTLSHandshake_invariant (env : Env) (host : String) (port timeout : Nat) :
    resultInvariant (testTLSHandshake env host port timeout) host := by
  cases h : env.tlsDial timeout (host ++ ":" ++ toString port) { serverName := host } with
  | error e =>
    simp only [testTLSHandshake, h]
    exact resultInvariant_fail _ _ (length_pos_of_left _ _ (by decide))
  | ok st =>
    simp only [testTLSHandshake, h]
    exact resultInvariant_ok _ _

/-- Helper: the insecure TLS probe's result always satisfies the invariant
with the dial host as configured name. -/
theorem testTLSHandshakeInsecure_invariant (env : Env) (host : String) (port timeout : Nat) :
    resultInvariant (testTLSHandshakeInsecure env host port timeout) host := by
  cases h : env.tlsDial timeout (host ++ ":" ++ toString port)
      { serverName := host, insecureSkipVerify := true } with
  | error e =>
    simp only [testTLSHandshakeInsecure, h]
    exact resultInvariant_fail _ _ (length_pos_of_left _ _ (by decide))
  | ok st =>
    simp only [testTLSHandshakeInsecure, h]
    exact resultInvariant_ok _ _

/-- Helper: the custom-SNI probe's result always satisfies the invariant
with the override as configured name. -/
theorem testTLSHandshakeWithSNI_invariant (env : Env) (host sni : String)
    (port timeout : Nat) :
    resultInvariant (testTLSHandshakeWithSNI env host port sni timeout) sni := by
  cases h : env.tlsDial timeout (host ++ ":" ++ toString port) { serverName := sni } with
  | error e =>
    simp only [testTLSHandshakeWithSNI, h]
    exact resultInvariant_fail _ _ (length_pos_of_left _ _ (by decide))
  | ok st =>
    simp only [testTLSHandshakeWithSNI, h]
    exact resultInvariant_ok _ _

/-- Helper: the database STARTTLS probe's result always satisfies the
invariant with the dial host as configured name. -/
theorem testPostgresSTARTTLS_invariant (env : Env) (host : String) (port timeout : Nat) :
    resultInvariant (testPostgresSTARTTLS env host port timeout).1 host := by
  cases hdial : env.dial timeout (host ++ ":" ++ toString port) with
  | error e =>
    simp only [testPostgresSTARTTLS, hdial]
    exact resultInvariant_fail _ _ (length_pos_of_left _ _ (by decide))
  | ok u =>
    cases hwrite : env.write sslRequest with
    | error e =>
      simp only [testPostgresSTARTTLS, hdial, hwrite]
      exact resultInvariant_fail _ _ (length_pos_of_left _ _ (by decide))
    | ok u2 =>
      cases hread : env.read 1 with
      | error e =>
        simp only [testPostgresSTARTTLS, hdial, hwrite, hread]
        exact resultInvariant_fail _ _ (length_pos_of_left _ _ (by decide))
      | ok data =>
        by_cases hb : (data.take 1).headD 0 = 0x53
        · cases hhs : env.handshake { serverName := host } with
          | error e =>
            simp only [testPostgresSTARTTLS, hdial, hwrite, hread]
            simp only [hb, not_true_eq_false, ite_false, hhs]
            exact resultInvariant_fail _ _ (length_pos_of_left _ _ (by decide))
          | ok st =>
            simp only [testPostgresSTARTTLS, hdial, hwrite, hread]
            simp only [hb, not_true_eq_false, ite_false, hhs]
            exact resultInvariant_ok _ _
        · simp only [testPostgresSTARTTLS, hdial, hwrite, hread]
          simp only [if_pos hb]
          exact resultInvariant_fail _ _
            (length_pos_of_left _ _ (length_pos_of_left _ _ (by decide)))

/-- Helper: the directory-service STARTTLS probe's result always
satisfies the invariant with the dial host as configured name. -/
theorem testLDAPSTARTTLS_invariant (env : Env) (host : String) (port timeout : Nat) :
    resultInvariant (testLDAPSTARTTLS env host port timeout).1 host := by
  cases hdial : env.dial timeout (host ++ ":" ++ toString port) with
  | error e =>
    simp only [testLDAPSTARTTLS, hdial]
    exact resultInvariant_fail _ _ (length_pos_of_left _ _ (by decide))
  | ok u =>
    cases hwrite : env.write startTLSRequest with
    | error e =>
      simp only [testLDAPSTARTTLS, hdial, hwrite]
      exact resultInvariant_fail _ _ (length_pos_of_left _ _ (by decide))
    | ok u2 =>
      cases hread : env.read 1024 with
      | error e =>
        simp only [testLDAPSTARTTLS, hdial, hwrite, hread]
        exact resultInvariant_fail _ _ (length_pos_of_left _ _ (by decide))
      | ok data =>
        by_cases hn : (data.take 1024).length < 10
        · simp only [testLDAPSTARTTLS, hdial, hwrite, hread]
          simp only [if_pos hn]
          exact resultInvariant_fail _ _ (length_pos_of_left _ _ (by decide))
        · cases hhs : env.handshake { serverName := host } with
          | error e =>
            simp only [testLDAPSTARTTLS, hdial, hwrite, hread]
            simp only [if_neg hn, hhs]
            exact resultInvariant_fail _ _ (length_pos_of_left _ _ (by decide))
          | ok st =>
            simp only [testLDAPSTARTTLS, hdial, hwrite, hread]
            simp only [if_neg hn, hhs]
            exact resultInvariant_ok _ _

/-- C1: for the database-protocol STARTTLS probe, after the upgrade frame
is written exactly one response byte is read (the only read in the trace
uses a 1-byte buffer); when that byte is not ASCII 'S' (0x53) the probe
fails with the cause "server does not support SSL (response: <byte>)"
reporting the offending byte, and no TLS handshake is attempted on the
connection. -/
theorem postgres_rejects_non_S (env : Env) (host : String) (port timeout : Nat)
    (data : List Nat)
    (hdial : env.dial timeout (host ++ ":" ++ toString port) = .ok ())
    (hwrite : env.write sslRequest = .ok ())
    (hread : env.read 1 = .ok data)
    (hb : (data.take 1).headD 0 ≠ 0x53) :
    (testPostgresSTARTTLS env host port timeout).1.success = false ∧
    (testPostgresSTARTTLS env host port timeout).1.err =
      some ("server does not support SSL (response: " ++
        String.mk [Char.ofNat ((data.take 1).headD 0)] ++ ")") ∧
    attemptsHandshake (testPostgresSTARTTLS env host port timeout).2 = false ∧
    NetAction.readBuf 1 ∈ (testPostgresSTARTTLS env host port timeout).2 ∧
    (∀ n, NetAction.readBuf n ∈ (testPostgresSTARTTLS env host port timeout).2 → n = 1) := by
  simp only [testPostgresSTARTTLS, hdial, hwrite, hread]
  simp only [if_pos hb]
  refine ⟨by trivial, by trivial, by simp [attemptsHandshake], by simp, ?_⟩
  intro n hn
  simp at hn
  exact hn

/-- C1 witness: the theorem at the mock server whose response byte is 'N'
(0x4e). -/
theorem postgres_rejects_non_S_witness :
    (testPostgresSTARTTLS envBadByte "db.example" 5432 10).1.success = false ∧
    (testPostgresSTARTTLS envBadByte "db.example" 5432 10).1.err =
      some ("server does not support SSL (response: " ++
        String.mk [Char.ofNat (([0x4e].take 1).headD 0)] ++ ")") ∧
    attemptsHandshake (testPostgresSTARTTLS envBadByte "db.example" 5432 10).2 = false ∧
    NetAction.readBuf 1 ∈ (testPostgresSTARTTLS envBadByte "db.example" 5432 10).2 ∧
    (∀ n, NetAction.readBuf n ∈ (testPostgresSTARTTLS envBadByte "db.example" 5432 10).2 →
      n = 1) :=
  postgres_rejects_non_S envBadByte "db.example" 5432 10 [0x4e] rfl rfl rfl (by decide)

/-- C2: for the directory-service STARTTLS probe, any response read of at
least 10 bytes (including exactly 10 bytes of arbitrary content) is
treated as upgrade granted and the probe proceeds to attempt the TLS
handshake; a read of fewer than 10 bytes yields a failed result reporting
the received length, with no TLS handshake attempted. -/
theorem ldap_length_check (env : Env) (host : String) (port timeout : Nat)
    (data : List Nat)
    (hdial : env.dial timeout (host ++ ":" ++ toString port) = .ok ())
    (hwrite : env.write startTLSRequest = .ok ())
    (hread : env.read 1024 = .ok data) :
    (10 ≤ (data.take 1024).length →
      NetAction.handshake { serverName := host } ∈
        (testLDAPSTARTTLS env host port timeout).2 ∧
      attemptsHandshake (testLDAPSTARTTLS env host port timeout).2 = true) ∧
    ((data.take 1024).length < 10 →
      (testLDAPSTARTTLS env host port timeout).1.success = false ∧
      (testLDAPSTARTTLS env host port timeout).1.err =
        some ("invalid STARTTLS response length: " ++
          toString ((data.take 1024).length)) ∧
      attemptsHandshake (testLDAPSTARTTLS env host port timeout).2 = false) := by
  constructor
  · intro hn
    have hn' : ¬((data.take 1024).length < 10) := by omega
    simp only [testLDAPSTARTTLS, hdial, hwrite, hread]
    simp only [if_neg hn']
    cases hhs : env.handshake { serverName := host } <;>
      simp [hhs, attemptsHandshake]
  · intro hn
    simp only [testLDAPSTARTTLS, hdial, hwrite, hread]
    simp only [if_pos hn]
    exact ⟨by trivial, by trivial, by simp [attemptsHandshake]⟩

/-- C2 witness: a mock returning exactly 10 bytes of arbitrary content is
accepted and the TLS handshake is attempted. -/
theorem ldap_length_check_witness :
    NetAction.handshake { serverName := "ldap.example" } ∈
      (testLDAPSTARTTLS envLDAP10 "ldap.example" 389 10).2 ∧
    attemptsHandshake (testLDAPSTARTTLS envLDAP10 "ldap.example" 389 10).2 = true :=
  (ldap_length_check envLDAP10 "ldap.example" 389 10
    [0x30, 0x0c, 0x02, 0x01, 0x01, 0x78, 0x07, 0x0a, 0x01, 0x00] rfl rfl rfl).1
    (by decide)

/-- C3: the database-protocol STARTTLS probe writes, for every host and
port, exactly the 8-byte frame 00 00 00 08 04 D2 16 2F: a 4-byte
big-endian length field with value 8 followed by the 4-byte SSL-request
code 0x04d2162f; every write in its trace is that frame, and the frame is
written whenever the dial succeeds. -/
theorem postgres_upgrade_frame_exact (env : Env) (host : String) (port timeout : Nat) :
    sslRequest.length = 8 ∧
    beValue (sslRequest.take 4) = 8 ∧
    beValue (sslRequest.drop 4) = 0x04d2162f ∧
    (∀ d, NetAction.write d ∈ (testPostgresSTARTTLS env host port timeout).2 →
      d = sslRequest) ∧
    (env.dial timeout (host ++ ":" ++ toString port) = .ok () →
      NetAction.write sslRequest ∈ (testPostgresSTARTTLS env host port timeout).2) := by
  refine ⟨by decide, by decide, by decide, ?_, ?_⟩
  · intro d hd
    cases hdial : env.dial timeout (host ++ ":" ++ toString port) with
    | error e =>
      simp only [testPostgresSTARTTLS, hdial] at hd
      simp at hd
    | ok u =>
      cases hwrite : env.write sslRequest with
      | error e =>
        simp only [testPostgresSTARTTLS, hdial, hwrite] at hd
        simp at hd
        exact hd
      | ok u2 =>
        cases hread : env.read 1 with
        | error e =>
          simp only [testPostgresSTARTTLS, hdial, hwrite, hread] at hd
          simp at hd
          exact hd
        | ok data =>
          by_cases hb : (data.take 1).headD 0 = 0x53
          · cases hhs : env.handshake { serverName := host } with
            | error e =>
              simp only [testPostgresSTARTTLS, hdial, hwrite, hread] at hd
              simp only [hb, not_true_eq_false, ite_false, hhs] at hd
              simp at hd
              exact hd
            | ok st =>
              simp only [testPostgresSTARTTLS, hdial, hwrite, hread] at hd
              simp only [hb, not_true_eq_false, ite_false, hhs] at hd
              simp at hd
              exact hd
          · simp only [testPostgresSTARTTLS, hdial, hwrite, hread] at hd
            simp only [if_pos hb] at hd
            simp at hd
            exact hd
  · intro hdial
    cases hwrite : env.write sslRequest with
    | error e =>
      simp only [testPostgresSTARTTLS, hdial, hwrite]
      simp
    | ok u2 =>
      cases hread : env.read 1 with
      | error e =>
        simp only [testPostgresSTARTTLS, hdial, hwrite, hread]
        simp
      | ok data =>
        by_cases hb : (data.take 1).headD 0 = 0x53
        · cases hhs : env.handshake { serverName := host } with
          | error e =>
            simp only [testPostgresSTARTTLS, hdial, hwrite, hread]
            simp only [hb, not_true_eq_false, ite_false, hhs]
            simp
          | ok st =>
            simp only [testPostgresSTARTTLS, hdial, hwrite, hread]
            simp only [hb, not_true_eq_false, ite_false, hhs]
            simp
        · simp only [testPostgresSTARTTLS, hdial, hwrite, hread]
          simp only [if_pos hb]
          simp

/-- C3 witness: the frame is written on a successfully dialed
connection. -/
theorem postgres_upgrade_frame_exact_witness :
    NetAction.write sslRequest ∈ (testPostgresSTARTTLS envBadByte "db.example" 5432 10).2 :=
  (postgres_upgrade_frame_exact envBadByte "db.example" 5432 10).2.2.2.2 rfl

/-- C4: the directory-service STARTTLS probe writes, for every host and
port, exactly the constant 31-byte BER frame 30 1D 02 01 01 77 18 80 16
followed by the 22 ASCII bytes of "1.3.6.1.4.1.1466.20037"; the frame is
a closed constant independent of any run-time parameter, every write in
the probe's trace is that frame, and it is written whenever the dial
succeeds. -/
theorem ldap_upgrade_frame_exact (env : Env) (host : String) (port timeout : Nat) :
    startTLSRequest.length = 31 ∧
    startTLSRequest =
      [0x30, 0x1d, 0x02, 0x01, 0x01, 0x77, 0x18, 0x80, 0x16] ++
        ("1.3.6.1.4.1.1466.20037".toList.map Char.toNat) ∧
    (∀ d, NetAction.write d ∈ (testLDAPSTARTTLS env host port timeout).2 →
      d = startTLSRequest) ∧
    (env.dial timeout (host ++ ":" ++ toString port) = .ok () →
      NetAction.write startTLSRequest ∈ (testLDAPSTARTTLS env host port timeout).2) := by
  refine ⟨by decide, by decide, ?_, ?_⟩
  · intro d hd
    cases hdial : env.dial timeout (host ++ ":" ++ toString port) with
    | error e =>
      simp only [testLDAPSTARTTLS, hdial] at hd
      simp at hd
    | ok u =>
      cases hwrite : env.write startTLSRequest with
      | error e =>
        simp only [testLDAPSTARTTLS, hdial, hwrite] at hd
        simp at hd
        exact hd
      | ok u2 =>
        cases hread : env.read 1024 with
        | error e =>
          simp only [testLDAPSTARTTLS, hdial, hwrite, hread] at hd
          simp at hd
          exact hd
        | ok data =>
          by_cases hn : (data.take 1024).length < 10
          · simp only [testLDAPSTARTTLS, hdial, hwrite, hread] at hd
            simp only [if_pos hn] at hd
            simp at hd
            exact hd
          · cases hhs : env.handshake { serverName := host } with
            | error e =>
              simp only [testLDAPSTARTTLS, hdial, hwrite, hread] at hd
              simp only [if_neg hn, hhs] at hd
              simp at hd
              exact hd
            | ok st =>
              simp only [testLDAPSTARTTLS, hdial, hwrite, hread] at hd
              simp only [if_neg hn, hhs] at hd
              simp at hd
              exact hd
  · intro hdial
    cases hwrite : env.write startTLSRequest with
    | error e =>
      simp only [testLDAPSTARTTLS, hdial, hwrite]
      simp
    | ok u2 =>
      cases hread : env.read 1024 with
      | error e =>
        simp only [testLDAPSTARTTLS, hdial, hwrite, hread]
        simp
      | ok data =>
        by_cases hn : (data.take 1024).length < 10
        · simp only [testLDAPSTARTTLS, hdial, hwrite, hread]
          simp only [if_pos hn]
          simp
        · cases hhs : env.handshake { serverName := host } with
          | error e =>
            simp only [testLDAPSTARTTLS, hdial, hwrite, hread]
            simp only [if_neg hn, hhs]
            simp
          | ok st =>
            simp only [testLDAPSTARTTLS, hdial, hwrite, hread]
            simp only [if_neg hn, hhs]
            simp

/-- C4 witness: the frame is written on a successfully dialed
connection. -/
theorem ldap_upgrade_frame_exact_witness :
    NetAction.write startTLSRequest ∈ (testLDAPSTARTTLS envLDAP10 "ldap.example" 389 10).2 :=
  (ldap_upgrade_frame_exact envLDAP10 "ldap.example" 389 10).2.2.2 rfl

/-- C7: SNI precedence and default: the custom-SNI probe's result carries
the supplied override as serverName (for every override, also when it
differs from the dial host), while the plain, insecure and both STARTTLS
variants carry the dial host. -/
theorem sni_precedence (env : Env) (host sni : String) (port timeout : Nat) :
    (testTLSHandshakeWithSNI env host port sni timeout).serverName = sni ∧
    (testTLSHandshake env host port timeout).serverName = host ∧
    (testTLSHandshakeInsecure env host port timeout).serverName = host ∧
    (testPostgresSTARTTLS env host port timeout).1.serverName = host ∧
    (testLDAPSTARTTLS env host port timeout).1.serverName = host :=
  ⟨(testTLSHandshakeWithSNI_invariant env host sni port timeout).1,
   (testTLSHandshake_invariant env host port timeout).1,
   (testTLSHandshakeInsecure_invariant env host port timeout).1,
   (testPostgresSTARTTLS_invariant env host port timeout).1,
   (testLDAPSTARTTLS_invariant env host port timeout).1⟩

/-- C8 counterexample: on a failing dial the plain probe's result still
carries the dial host in its serverName field, so "version, cipher suite,
peer-certificate count, and server name all unset" is false — the server
name is populated even on failure. -/
theorem failure_serverName_populated :
    (testTLSHandshake envRefuseAll "example.com" 443 10).success = false ∧
    (testTLSHandshake envRefuseAll "example.com" 443 10).err.isSome = true ∧
    ¬((testTLSHandshake envRefuseAll "example.com" 443 10).serverName = "") := by
  refine ⟨rfl, rfl, ?_⟩
  decide

/-- C8 (amended): for every probe variant, whenever the probe fails
(dial, upgrade exchange, or TLS handshake) the result has success=false,
a populated failure cause, and the handshake-derived fields (version,
cipher suite, peer-certificate count) left at their zero values; the
serverName field retains the configured name (the dial host, or the SNI
override for the custom-SNI variant) rather than being unset. -/
theorem failure_no_partial_fields (env : Env) (host sni : String) (port timeout : Nat) :
    ((testTLSHandshake env host port timeout).success = false →
      (testTLSHandshake env host port timeout).version = 0 ∧
      (testTLSHandshake env host port timeout).cipherSuite = 0 ∧
      (testTLSHandshake env host port timeout).peerCertificates = 0 ∧
      (testTLSHandshake env host port timeout).err.isSome = true ∧
      (testTLSHandshake env host port timeout).serverName = host) ∧
    ((testTLSHandshakeInsecure env host port timeout).success = false →
      (testTLSHandshakeInsecure env host port timeout).version = 0 ∧
      (testTLSHandshakeInsecure env host port timeout).cipherSuite = 0 ∧
      (testTLSHandshakeInsecure env host port timeout).peerCertificates = 0 ∧
      (testTLSHandshakeInsecure env host port timeout).err.isSome = true ∧
      (testTLSHandshakeInsecure env host port timeout).serverName = host) ∧
    ((testTLSHandshakeWithSNI env host port sni timeout).success = false →
      (testTLSHandshakeWithSNI env host port sni timeout).version = 0 ∧
      (testTLSHandshakeWithSNI env host port sni timeout).cipherSuite = 0 ∧
      (testTLSHandshakeWithSNI env host port sni timeout).peerCertificates = 0 ∧
      (testTLSHandshakeWithSNI env host port sni timeout).err.isSome = true ∧
      (testTLSHandshakeWithSNI env host port sni timeout).serverName = sni) ∧
    ((testPostgresSTARTTLS env host port timeout).1.success = false →
      (testPostgresSTARTTLS env host port timeout).1.version = 0 ∧
      (testPostgresSTARTTLS env host port timeout).1.cipherSuite = 0 ∧
      (testPostgresSTARTTLS env host port timeout).1.peerCertificates = 0 ∧
      (testPostgresSTARTTLS env host port timeout).1.err.isSome = true ∧
      (testPostgresSTARTTLS env host port timeout).1.serverName = host) ∧
    ((testLDAPSTARTTLS env host port timeout).1.success = false →
      (testLDAPSTARTTLS env host port timeout).1.version = 0 ∧
      (testLDAPSTARTTLS env host port timeout).1.cipherSuite = 0 ∧
      (testLDAPSTARTTLS env host port timeout).1.peerCertificates = 0 ∧
      (testLDAPSTARTTLS env host port timeout).1.err.isSome = true ∧
      (testLDAPSTARTTLS env host port timeout).1.serverName = host) := by
  refine ⟨?_, ?_, ?_, ?_, ?_⟩ <;> intro hf
  · obtain ⟨hs, _, hz, _⟩ := testTLSHandshake_invariant env host port timeout
    obtain ⟨z1, z2, z3, z4⟩ := hz hf
    exact ⟨z1, z2, z3, z4, hs⟩
  · obtain ⟨hs, _, hz, _⟩ := testTLSHandshakeInsecure_invariant env host port timeout
    obtain ⟨z1, z2, z3, z4⟩ := hz hf
    exact ⟨z1, z2, z3, z4, hs⟩
  · obtain ⟨hs, _, hz, _⟩ := testTLSHandshakeWithSNI_invariant env host sni port timeout
    obtain ⟨z1, z2, z3, z4⟩ := hz hf
    exact ⟨z1, z2, z3, z4, hs⟩
  · obtain ⟨hs, _, hz, _⟩ := testPostgresSTARTTLS_invariant env host port timeout
    obtain ⟨z1, z2, z3, z4⟩ := hz hf
    exact ⟨z1, z2, z3, z4, hs⟩
  · obtain ⟨hs, _, hz, _⟩ := testLDAPSTARTTLS_invariant env host port timeout
    obtain ⟨z1, z2, z3, z4⟩ := hz hf
    exact ⟨z1, z2, z3, z4, hs⟩

/-- C8 witness: the amended theorem applied to the refusing oracle, whose
dial fails. -/
theorem failure_no_partial_fields_witness :
    (testTLSHandshake envRefuseAll "db.example" 443 10).version = 0 ∧
    (testTLSHandshake envRefuseAll "db.example" 443 10).cipherSuite = 0 ∧
    (testTLSHandshake envRefuseAll "db.example" 443 10).peerCertificates = 0 ∧
    (testTLSHandshake envRefuseAll "db.example" 443 10).err.isSome = true ∧
    (testTLSHandshake envRefuseAll "db.example" 443 10).serverName = "db.example" :=
  (failure_no_partial_fields envRefuseAll "db.example" "other" 443 10).1 rfl

/-- C9: every probe variant always returns a fully-formed result value
(the embedded functions are total), success holds exactly when no failure
cause is recorded — i.e. exactly when the TLS handshake completed without
error — and every failure path populates a non-empty cause. -/
theorem probes_success_iff_no_err (env : Env) (host sni : String) (port timeout : Nat) :
    (((testTLSHandshake env host port timeout).success = true ↔
        (testTLSHandshake env host port timeout).err = none) ∧
      ∀ s, (testTLSHandshake env host port timeout).err = some s → 0 < s.length) ∧
    (((testTLSHandshakeInsecure env host port timeout).success = true ↔
        (testTLSHandshakeInsecure env host port timeout).err = none) ∧
      ∀ s, (testTLSHandshakeInsecure env host port timeout).err = some s → 0 < s.length) ∧
    (((testTLSHandshakeWithSNI env host port sni timeout).success = true ↔
        (testTLSHandshakeWithSNI env host port sni timeout).err = none) ∧
      ∀ s, (testTLSHandshakeWithSNI env host port sni timeout).err = some s →
        0 < s.length) ∧
    (((testPostgresSTARTTLS env host port timeout).1.success = true ↔
        (testPostgresSTARTTLS env host port timeout).1.err = none) ∧
      ∀ s, (testPostgresSTARTTLS env host port timeout).1.err = some s → 0 < s.length) ∧
    (((testLDAPSTARTTLS env host port timeout).1.success = true ↔
        (testLDAPSTARTTLS env host port timeout).1.err = none) ∧
      ∀ s, (testLDAPSTARTTLS env host port timeout).1.err = some s → 0 < s.length) :=
  ⟨⟨(testTLSHandshake_invariant env host port timeout).2.1,
    (testTLSHandshake_invariant env host port timeout).2.2.2⟩,
   ⟨(testTLSHandshakeInsecure_invariant env host port timeout).2.1,
    (testTLSHandshakeInsecure_invariant env host port timeout).2.2.2⟩,
   ⟨(testTLSHandshakeWithSNI_invariant env host sni port timeout).2.1,
    (testTLSHandshakeWithSNI_invariant env host sni port timeout).2.2.2⟩,
   ⟨(testPostgresSTARTTLS_invariant env host port timeout).2.1,
    (testPostgresSTARTTLS_invariant env host port timeout).2.2.2⟩,
   ⟨(testLDAPSTARTTLS_invariant env host port timeout).2.1,
    (testLDAPSTARTTLS_invariant env host port timeout).2.2.2⟩⟩

/-- C9 witness: the dial-failure cause recorded by the refusing oracle is
non-empty. -/
theorem probes_success_iff_no_err_witness :
    0 < ("TLS handshake failed: " ++ "connection refused").length :=
  (probes_success_iff_no_err envRefuseAll "example.org" "other" 443 10).1.2
    ("TLS handshake failed: " ++ "connection refused") rfl

/-- C10: invoked with the SNI override equal to the dial host, the
custom-SNI probe computes exactly the same result as the plain TLS probe
on the same host, port and timeout (both build the same TLS configuration
and the same result, for every network behaviour). -/
theorem withSNI_host_eq_plain (env : Env) (host : String) (port timeout : Nat) :
    testTLSHandshakeWithSNI env host port host timeout =
      testTLSHandshake env host port timeout := rfl
